import Mathlib

/-!
Verification development for the `ign-gazebo` process supervisor
(`src/ign.cc`): the Mode Resolver, Process Launcher, Signal Relay,
Shutdown Escalator (`KillProcess`) and Exit Reaper of `main`.

The C++ source is shallowly embedded: `KillProcess` becomes a fuel-indexed
loop over an oracle describing when `waitpid` would reap the child; the
signal callback and the post-`wait` tail of `main` become explicit state
transformers that additionally record a chronological event trace
(signals sent, children spawned, the self-raise); the whole of `main`'s
run path becomes a small-step transition relation so that invariants can
be stated over every interleaving of the asynchronous signal handler
with the main flow.
-/

namespace IgnGazebo

/-- The two child roles managed by the supervisor. -/
inductive Role where
  | server
  | gui
deriving DecidableEq, Repr

/-- The two signals the Shutdown Escalator can send: the graceful
interrupt (`SIGINT`, line 100 of `ign.cc`) and the forceful kill
(`SIGKILL`, line 126). -/
inductive Sig where
  | sigint
  | sigkill
deriving DecidableEq, Repr

/-- Observable events of a supervisor run, in chronological order. -/
inductive Ev where
  /-- A `fork`/`execvp` pair spawned the child of the given role. -/
  | spawn (r : Role)
  /-- `kill(pid, sig)` was issued against the child of the given role. -/
  | sendSig (r : Role) (s : Sig)
  /-- The signal callback set the shared `sigKilled` flag. -/
  | setSignaled
  /-- `wait` returned: the child of the given role was reaped with the
  given raw wait-status word. -/
  | reaped (r : Role) (status : Nat)
  /-- `std::raise(SIGINT)`: the supervisor raised the termination signal
  against itself (line 268 of `ign.cc`). -/
  | selfRaise
deriving DecidableEq, Repr

/-! ## Shutdown Escalator: `KillProcess` (ign.cc lines 97-128)

The loop body is driven by an oracle `reaped : Nat → Bool`: `reaped i`
tells whether the `waitpid(pid, &status, WNOHANG)` call of iteration `i`
returns the child's pid (the child has exited and is reaped there).
The iteration count `(unsigned)(_timeout / sleepSecs)` is abstracted as
the parameter `nIters` (5000 for the default 5.0 s timeout and 1 ms
sleep). -/

/-- One pass of the `for` loop of `KillProcess`: iteration index `i`,
remaining fuel, and the current value of the by-reference `_killed`
flag. Returns the final `_killed` value paired with the number of sleep
calls performed (the loop sleeps at the end of every iteration that did
not `break`). -/
def killLoop (reaped : Nat → Bool) : Nat → Nat → Bool → Bool × Nat
  | _, 0, killed => (killed, 0)
  | i, Nat.succ fuel, killed =>
      if killed then (killed, 0)
      else if reaped i then (true, 0)
      else
        let rest := killLoop reaped (i + 1) fuel killed
        (rest.1, rest.2 + 1)

/-- Result of one `KillProcess` call: the final value of the
by-reference `_killed` flag, the number of sleep iterations performed,
and the signals sent to the child, in order. -/
structure KillResult where
  killed : Bool
  sleeps : Nat
  signals : List Sig
deriving DecidableEq, Repr

/-- `KillProcess(pid, name, timeout, killed)`: unconditionally send
`SIGINT`, then poll up to `nIters` times, and finally send `SIGKILL`
iff the `_killed` flag is still false after the loop (lines 100-127 of
`ign.cc`). Note the source does not set `_killed` after the `SIGKILL`. -/
def KillProcess (nIters : Nat) (reaped : Nat → Bool) (killed0 : Bool) :
    KillResult :=
  let r := killLoop reaped 0 nIters killed0
  { killed := r.1
    sleeps := r.2
    signals := Sig.sigint :: (if r.1 then [] else [Sig.sigkill]) }

/-- A `waitpid` oracle for a child that never exits during the polling
window. -/
def neverReaped : Nat → Bool := fun _ => false

/-! ## Mode Resolver (ign.cc lines 206-234)

In the source the server branch runs under `if (!FLAGS_g)` (line 208)
and the GUI branch under `if (!FLAGS_s)` (line 223). -/

/-- Whether the child of role `r` is spawned, given the `-s` and `-g`
flags, exactly as the `fork` sites are guarded in the source. -/
def planned (fs fg : Bool) : Role → Bool
  | Role.server => !fg
  | Role.gui => !fs

/-- The list of children `main` spawns, server branch first, given the
`-s` and `-g` flags. -/
def spawnedChildren (fs fg : Bool) : List Role :=
  (if !fg then [Role.server] else []) ++ (if !fs then [Role.gui] else [])

/-! ## Verbosity validation (ign.cc lines 86-89) -/

/-- `VerbosityValidator`: accepts exactly the values 0 through 4. -/
def VerbosityValidator (value : Int) : Bool :=
  decide (0 ≤ value) && decide (value ≤ 4)

/-! ## Early `main`: parse, help, version (ign.cc lines 148-199) -/

/-- Outcome of the part of `main` that runs before any child is
spawned. -/
inductive EarlyOutcome where
  /-- A registered flag validator rejected the supplied value, so the
  flag library aborted the parse; `main`'s body after line 154 never
  runs. -/
  | validationError
  /-- `Help()` printed the usage text and `main` returned `returnValue`
  (still 0) at line 190. -/
  | helpShown (exitCode : Int)
  /-- `Version()` printed the version string and `main` returned
  `returnValue` (still 0) at line 198. -/
  | versionShown (exitCode : Int)
  /-- Neither help nor version was requested: `main` continues to spawn
  children. -/
  | proceed
deriving DecidableEq, Repr

/-- The early part of `main`, lines 148-199. `verboseSupplied` /
`vSupplied` are the values given on the command line for `--verbose` /
`-v` (or their default 1 when absent); `hFlag` is `FLAGS_h`, `helpCur`
and `versionCur` the current values of the gflags built-in `help` and
`version` flags.

The first branch is modelled from the external flag library's contract
(spec: a ValidationFailure is "rejected synchronously at argument-parse
time, no children launched"): `gflags::RegisterFlagValidator` (lines
149-150) makes `ParseCommandLineNonHelpFlags` (line 154) run
`VerbosityValidator` on every supplied verbosity value and abort on
failure. Everything after the first branch is direct from the source:
`showHelp = FLAGS_h || help` (line 165), checked before `showVersion`
(lines 183 and 194). -/
def earlyMain (verboseSupplied vSupplied : Int)
    (hFlag helpCur versionCur : Bool) : EarlyOutcome :=
  if ¬ (VerbosityValidator verboseSupplied = true ∧
        VerbosityValidator vSupplied = true) then
    EarlyOutcome.validationError
  else if hFlag || helpCur then
    EarlyOutcome.helpShown 0
  else if versionCur then
    EarlyOutcome.versionShown 0
  else
    EarlyOutcome.proceed

/-- The children spawned for a given early outcome: none unless the
parse succeeded and neither help nor version short-circuited `main`. -/
def childrenOfOutcome (fs fg : Bool) : EarlyOutcome → List Role
  | EarlyOutcome.proceed => spawnedChildren fs fg
  | _ => []

/-! ## Child argument vectors (ign.cc lines 135-146)

`main` copies its received `_argv` into `argvServer` / `argvGui` before
gflags parses (and clears) it: slot 0 becomes the target executable
name, slots `1 .. argc-1` are copied verbatim, and slot `argc` is the
null terminator. A slot is modelled as `Option String`, `none` being
the null pointer. -/

/-- The argv built for a child: `name` in slot 0, the tail of the
supervisor's argv verbatim, then the null terminator. -/
def childArgv (name : String) (argv : List String) : List (Option String) :=
  some name :: ((argv.drop 1).map some ++ [none])

/-! ## Exit-status aggregation (ign.cc lines 251-259)

The raw wait-status word is modelled as a `Nat` with the glibc layout:
`WIFEXITED(s) = ((s & 0x7f) == 0)` and
`WEXITSTATUS(s) = ((s >> 8) & 0xff)`. -/

/-- `WIFEXITED`: the child terminated normally (low seven bits zero). -/
def wifexited (status : Nat) : Bool := status % 128 == 0

/-- `WEXITSTATUS`: the child's exit code (bits 8-15). -/
def wexitstatus (status : Nat) : Nat := (status / 256) % 256

/-- The supervisor's aggregate return value computed from the first
reaped child's status word (lines 255-259): `-1` when the child did not
exit normally or exited with a nonzero code, `0` otherwise. -/
def aggregateReturn (status : Nat) : Int :=
  if wifexited status = false ∨ wexitstatus status ≠ 0 then -1 else 0

/-- Spec-side predicate, for comparison: "the child exited normally
with status 0". -/
def exitedCleanly (status : Nat) : Bool :=
  wifexited status && wexitstatus status == 0

/-! ## Shared shutdown state (ign.cc lines 238-240) -/

/-- The three booleans shared between the main flow and the signal
callback: `sigKilled`, `guiKilled`, `serverKilled`. -/
structure ShutdownFlags where
  sigKilled : Bool
  guiKilled : Bool
  serverKilled : Bool
deriving DecidableEq, Repr

/-! ## Signal Relay: the callback of ign.cc lines 241-248 -/

/-- The signal callback: set `sigKilled`, then `KillProcess` the GUI
when `!FLAGS_s` and then the server when `!FLAGS_g`, each updating its
by-reference killed flag. Returns the updated flags and the emitted
events in order. `nG`/`gReap` (resp. `nS`/`sReap`) are the iteration
budget and `waitpid` oracle of the GUI (resp. server) escalation. -/
def sigCallback (fs fg : Bool) (nG nS : Nat) (gReap sReap : Nat → Bool)
    (fl : ShutdownFlags) : ShutdownFlags × List Ev :=
  let fl1 : ShutdownFlags := { fl with sigKilled := true }
  let guiStep : ShutdownFlags × List Ev :=
    if !fs then
      let r := KillProcess nG gReap fl1.guiKilled
      ({ fl1 with guiKilled := r.killed },
       r.signals.map (Ev.sendSig Role.gui))
    else (fl1, [])
  let serverStep : ShutdownFlags × List Ev :=
    if !fg then
      let r := KillProcess nS sReap guiStep.1.serverKilled
      ({ guiStep.1 with serverKilled := r.killed },
       r.signals.map (Ev.sendSig Role.server))
    else (guiStep.1, [])
  (serverStep.1, Ev.setSignaled :: (guiStep.2 ++ serverStep.2))

/-! ## Supervisor small-step machine (ign.cc lines 206-275)

The main flow is a sequence of program points; the signal callback may
fire asynchronously at any point after the handler is installed
(between its installation and `main`'s return). Program counter values:
0 = before the server `fork` (line 208), 1 = before the GUI `fork`
(line 223), 2 = before the handler installation (line 241), 3 = blocked
in `wait` (line 252), 4 = after `wait` returned and the status was
aggregated (lines 255-264), 5 = returned. -/

/-- Supervisor state: program counter, shared shutdown flags, the
`returnValue` local, and the chronological event trace. -/
structure MState where
  pc : Nat
  flags : ShutdownFlags
  ret : Int
  trace : List Ev
deriving DecidableEq, Repr

/-- Initial state of `main`'s run path. -/
def initState : MState :=
  { pc := 0, flags := ⟨false, false, false⟩, ret := 0, trace := [] }

/-- Lines 261-264: mark the reaped child's killed flag. -/
def setKilled : Role → ShutdownFlags → ShutdownFlags
  | Role.gui, fl => { fl with guiKilled := true }
  | Role.server, fl => { fl with serverKilled := true }

/-- The tail of `main` after the status of the dead child has been
recorded (lines 267-268 and return): if `sigKilled` is still false, the
supervisor raises `SIGINT` against itself, which synchronously runs the
signal callback; then `main` returns. -/
def finishStep (fs fg : Bool) (nG nS : Nat) (gReap sReap : Nat → Bool)
    (st : MState) : MState :=
  if st.flags.sigKilled then { st with pc := 5 }
  else
    let c := sigCallback fs fg nG nS gReap sReap st.flags
    { st with
        pc := 5
        flags := c.1
        trace := st.trace ++ Ev.selfRaise :: c.2 }

/-- One step of the supervisor: either the next main-flow action, or an
asynchronous firing of the signal callback (possible whenever the
handler is installed, i.e. at pc 3 or 4). The `waitpid` oracles and
iteration budgets of each callback invocation are chosen
nondeterministically, covering every child behaviour. -/
inductive Step (fs fg : Bool) : MState → MState → Prop where
  /-- Line 208-219: fork the server when `!FLAGS_g`. -/
  | forkServer (st : MState) (h : st.pc = 0) :
      Step fs fg st
        { st with
            pc := 1
            trace := st.trace ++ (if !fg then [Ev.spawn Role.server] else []) }
  /-- Line 223-234: fork the GUI when `!FLAGS_s`. -/
  | forkGui (st : MState) (h : st.pc = 1) :
      Step fs fg st
        { st with
            pc := 2
            trace := st.trace ++ (if !fs then [Ev.spawn Role.gui] else []) }
  /-- Lines 237-248: install the signal handler. -/
  | installHandler (st : MState) (h : st.pc = 2) :
      Step fs fg st { st with pc := 3 }
  /-- A termination signal arrives: the callback runs atomically. -/
  | handlerFires (st : MState) (h : st.pc = 3 ∨ st.pc = 4)
      (nG nS : Nat) (gReap sReap : Nat → Bool) :
      Step fs fg st
        { st with
          flags := (sigCallback fs fg nG nS gReap sReap st.flags).1,
          trace := st.trace ++ (sigCallback fs fg nG nS gReap sReap st.flags).2 }
  /-- Lines 252-264: `wait` returns a spawned child; aggregate its
  status and mark it killed. -/
  | reapChild (st : MState) (r : Role) (status : Nat) (h : st.pc = 3)
      (hr : planned fs fg r = true) :
      Step fs fg st
        { st with
            pc := 4
            flags := setKilled r st.flags
            ret := aggregateReturn status
            trace := st.trace ++ [Ev.reaped r status] }
  /-- With no spawned child, `wait` fails with `ECHILD` and the status
  word is uninitialised: the aggregated value is arbitrary. -/
  | reapNone (st : MState) (ret' : Int) (h : st.pc = 3)
      (hn : ∀ r, planned fs fg r = false) :
      Step fs fg st
        { st with
            pc := 4
            ret := ret' }
  /-- Lines 267-275: raise `SIGINT` against ourselves if no signal was
  caught, then return. -/
  | finish (st : MState) (h : st.pc = 4) (nG nS : Nat)
      (gReap sReap : Nat → Bool) :
      Step fs fg st (finishStep fs fg nG nS gReap sReap st)

/-- States reachable from the start of the run path. -/
inductive Reachable (fs fg : Bool) : MState → Prop where
  | start : Reachable fs fg initState
  | step {st st' : MState} : Reachable fs fg st → Step fs fg st st' →
      Reachable fs fg st'

/-- Spawn events are the `fork` records of a trace. -/
def isSpawn : Ev → Bool
  | Ev.spawn _ => true
  | _ => false

/-- The sub-trace of spawn events. -/
def spawnEvents (t : List Ev) : List Ev := t.filter isSpawn

/-- Concrete dual-child run, step 1: the server has been forked (used
as a concrete instantiation below). -/
def wState1 : MState :=
  { initState with
      pc := 1
      trace := initState.trace ++ (if !false then [Ev.spawn Role.server] else []) }

/-- Concrete dual-child run, step 2: the GUI has been forked. -/
def wState2 : MState :=
  { wState1 with
      pc := 2
      trace := wState1.trace ++ (if !false then [Ev.spawn Role.gui] else []) }

/-- Concrete dual-child run, step 3: the handler is installed. -/
def wState3 : MState := { wState2 with pc := 3 }

/-- Concrete dual-child run, step 4: a termination signal fired while
the main flow was blocked in `wait` (both escalations time out with a
zero budget). -/
def wState4 : MState :=
  { wState3 with
      flags := (sigCallback false false 0 0 neverReaped neverReaped
        wState3.flags).1
      trace := wState3.trace ++ (sigCallback false false 0 0 neverReaped
        neverReaped wState3.flags).2 }

/-- Concrete dual-child run, step 5: `wait` then returned the GUI with
status word 0. -/
def wState5 : MState :=
  { wState4 with
      pc := 4
      flags := setKilled Role.gui wState4.flags
      ret := aggregateReturn 0
      trace := wState4.trace ++ [Ev.reaped Role.gui 0] }

/-- A state of a dual-child run at pc 4: the GUI exited spontaneously
with status 0 and was reaped; no signal was caught (used as a concrete
instantiation below). -/
def reapedGuiState : MState :=
  { pc := 4
    flags := ⟨false, true, false⟩
    ret := 0
    trace := [Ev.spawn Role.server, Ev.spawn Role.gui,
              Ev.reaped Role.gui 0] }

/-! ## Helper lemmas about the Shutdown Escalator -/

/-- If `_killed` is already true on entry, the loop breaks at its first
iteration: no sleeps, flag stays true. -/
theorem killLoop_killed0_true (reaped : Nat → Bool) (i fuel : Nat) :
    killLoop reaped i fuel true = (true, 0) := by
  cases fuel <;> simp [killLoop]

/-- On an already-dead child, `KillProcess` returns `killed = true`,
performs no sleep, and sends no `SIGKILL` — but it still sends the
graceful `SIGINT` (line 100 runs before any check of `_killed`). -/
theorem KillProcess_dead_child (nIters : Nat) (reaped : Nat → Bool) :
    KillProcess nIters reaped true =
      { killed := true, sleeps := 0, signals := [Sig.sigint] } := by
  simp [KillProcess, killLoop_killed0_true]

/-- If the oracle never reaps the child and the flag starts false, the
loop runs all its iterations, sleeps at each of them and leaves the flag
false. -/
theorem killLoop_neverDies (reaped : Nat → Bool)
    (h : ∀ j, reaped j = false) (i fuel : Nat) :
    killLoop reaped i fuel false = (false, fuel) := by
  induction fuel generalizing i with
  | zero => simp [killLoop]
  | succ n ih => simp [killLoop, h, ih]

theorem KillProcess_signals_shape (n : Nat) (reaped : Nat → Bool) (b : Bool) :
    (KillProcess n reaped b).signals =
      Sig.sigint ::
        (if (KillProcess n reaped b).killed then [] else [Sig.sigkill]) := rfl

theorem KillProcess_killed_mono (n : Nat) (reaped : Nat → Bool) :
    (KillProcess n reaped true).killed = true := by
  simp [KillProcess, killLoop_killed0_true]

/-! ## Helper lemmas about the Signal Relay -/

/-- Resulting flags of one callback invocation. -/
theorem sigCallback_fst (fs fg : Bool) (nG nS : Nat)
    (gReap sReap : Nat → Bool) (fl : ShutdownFlags) :
    (sigCallback fs fg nG nS gReap sReap fl).1 =
      { sigKilled := true
        guiKilled :=
          if !fs then (KillProcess nG gReap fl.guiKilled).killed
          else fl.guiKilled
        serverKilled :=
          if !fg then (KillProcess nS sReap fl.serverKilled).killed
          else fl.serverKilled } := by
  cases fs <;> cases fg <;> simp [sigCallback]

/-- Resulting events of one callback invocation. -/
theorem sigCallback_snd (fs fg : Bool) (nG nS : Nat)
    (gReap sReap : Nat → Bool) (fl : ShutdownFlags) :
    (sigCallback fs fg nG nS gReap sReap fl).2 =
      Ev.setSignaled ::
        ((if !fs then
            (KillProcess nG gReap fl.guiKilled).signals.map
              (Ev.sendSig Role.gui)
          else []) ++
         (if !fg then
            (KillProcess nS sReap fl.serverKilled).signals.map
              (Ev.sendSig Role.server)
          else [])) := by
  cases fs <;> cases fg <;> simp [sigCallback]

/-- Every planned child receives the graceful `SIGINT` from the
callback: `KillProcess` sends it unconditionally as its first action. -/
theorem sigint_mem_sigCallback (fs fg : Bool) (nG nS : Nat)
    (gReap sReap : Nat → Bool) (fl : ShutdownFlags) (r : Role)
    (hr : planned fs fg r = true) :
    Ev.sendSig r Sig.sigint ∈ (sigCallback fs fg nG nS gReap sReap fl).2 := by
  rw [sigCallback_snd]
  cases r with
  | gui =>
      have hfs : fs = false := by
        cases fs
        · rfl
        · simp [planned] at hr
      subst hfs
      simp [KillProcess_signals_shape]
  | server =>
      have hfg : fg = false := by
        cases fg
        · rfl
        · simp [planned] at hr
      subst hfg
      simp [KillProcess_signals_shape]

/-! ## Invariant lemmas for the step machine -/

theorem spawnEvents_append (a b : List Ev) :
    spawnEvents (a ++ b) = spawnEvents a ++ spawnEvents b := by
  simp [spawnEvents, List.filter_append]

theorem spawnEvents_map_sendSig (r : Role) (l : List Sig) :
    spawnEvents (l.map (Ev.sendSig r)) = [] := by
  induction l with
  | nil => rfl
  | cons s l ih => simp [spawnEvents, isSpawn]

/-- The callback spawns nothing: its events are the signaled-flag record
and signals sent to children. -/
theorem spawnEvents_sigCallback (fs fg : Bool) (nG nS : Nat)
    (gReap sReap : Nat → Bool) (fl : ShutdownFlags) :
    spawnEvents (sigCallback fs fg nG nS gReap sReap fl).2 = [] := by
  rw [sigCallback_snd]
  cases fs <;> cases fg <;>
    simp [spawnEvents, isSpawn, spawnEvents_append, spawnEvents_map_sendSig]

theorem finishStep_pc (fs fg : Bool) (nG nS : Nat)
    (gReap sReap : Nat → Bool) (st : MState) :
    (finishStep fs fg nG nS gReap sReap st).pc = 5 := by
  by_cases h : st.flags.sigKilled <;> simp [finishStep, h]

theorem finishStep_sigKilled (fs fg : Bool) (nG nS : Nat)
    (gReap sReap : Nat → Bool) (st : MState) :
    (finishStep fs fg nG nS gReap sReap st).flags.sigKilled = true := by
  by_cases h : st.flags.sigKilled <;>
    simp [finishStep, h, sigCallback_fst]

/-- Flag monotonicity of one callback invocation. -/
theorem sigCallback_mono (fs fg : Bool) (nG nS : Nat)
    (gReap sReap : Nat → Bool) (fl : ShutdownFlags) :
    (sigCallback fs fg nG nS gReap sReap fl).1.sigKilled = true ∧
    (fl.guiKilled = true →
      (sigCallback fs fg nG nS gReap sReap fl).1.guiKilled = true) ∧
    (fl.serverKilled = true →
      (sigCallback fs fg nG nS gReap sReap fl).1.serverKilled = true) := by
  rw [sigCallback_fst]
  refine ⟨rfl, ?_, ?_⟩
  · intro h
    cases fs <;> simp [h, KillProcess_killed_mono]
  · intro h
    cases fg <;> simp [h, KillProcess_killed_mono]

/-- Flag monotonicity of the `main` tail. -/
theorem finishStep_mono (fs fg : Bool) (nG nS : Nat)
    (gReap sReap : Nat → Bool) (st : MState) :
    (st.flags.guiKilled = true →
      (finishStep fs fg nG nS gReap sReap st).flags.guiKilled = true) ∧
    (st.flags.serverKilled = true →
      (finishStep fs fg nG nS gReap sReap st).flags.serverKilled = true) := by
  by_cases h : st.flags.sigKilled
  · simp [finishStep, h]
  · simp only [finishStep, h, if_false, Bool.false_eq_true]
    exact ⟨(sigCallback_mono fs fg nG nS gReap sReap st.flags).2.1,
      (sigCallback_mono fs fg nG nS gReap sReap st.flags).2.2⟩

/-- Once the signal callback has run, the main flow is already past the
spawn sites: `sigKilled = true` implies pc ≥ 3. -/
theorem reachable_sigKilled_pc (fs fg : Bool) (st : MState)
    (h : Reachable fs fg st) : st.flags.sigKilled = true → 3 ≤ st.pc := by
  induction h with
  | start => intro hk; simp [initState] at hk
  | step hR hS ih =>
      cases hS with
      | forkServer h =>
          intro hk
          dsimp only at hk ⊢
          exact absurd (ih hk) (by omega)
      | forkGui h =>
          intro hk
          dsimp only at hk ⊢
          exact absurd (ih hk) (by omega)
      | installHandler h => intro _; dsimp only; omega
      | handlerFires h nG nS gReap sReap =>
          intro _
          dsimp only
          omega
      | reapChild r status h hr => intro _; dsimp only; omega
      | reapNone ret' h hn => intro _; dsimp only; omega
      | finish h nG nS gReap sReap =>
          intro _
          rw [finishStep_pc]
          omega

/-- The concrete signalled state `wState4` is reachable: server fork,
GUI fork, handler installation, then an asynchronous signal during
`wait`. -/
theorem wState4_reachable : Reachable false false wState4 := by
  have h1 : Step false false initState wState1 :=
    Step.forkServer initState rfl
  have h2 : Step false false wState1 wState2 := Step.forkGui wState1 rfl
  have h3 : Step false false wState2 wState3 :=
    Step.installHandler wState2 rfl
  have h4 : Step false false wState3 wState4 :=
    Step.handlerFires wState3 (Or.inl rfl) 0 0 neverReaped neverReaped
  exact Reachable.step (Reachable.step (Reachable.step (Reachable.step
    Reachable.start h1) h2) h3) h4

/-! ## Claim theorems -/

/-- C1: the Mode Resolver maps the flags to a launch plan as the
program's own help text states it — with neither `-s` nor `-g`, both
children are spawned; with `-s` alone only the server; with `-g` alone
only the GUI; and with both, `-s` is documented to override `-g`, so
only the server should be spawned. The code, however, guards the server
fork on `!FLAGS_g` and the GUI fork on `!FLAGS_s`, so with both flags
set it spawns neither child: this theorem evaluates the spawn logic at
the failing input (both flags set) alongside the three agreeing
modes. -/
theorem modeResolver_bug_both_flags :
    spawnedChildren false false = [Role.server, Role.gui] ∧
    spawnedChildren true false = [Role.server] ∧
    spawnedChildren false true = [Role.gui] ∧
    spawnedChildren true true = [] ∧
    planned true true Role.server = false ∧
    planned true true Role.gui = false := by
  decide

/-- C2 counterexample: `Terminate` on an already-dead child is claimed
to send no signal at all, but `KillProcess` issues the graceful
`SIGINT` unconditionally before it first consults the `_killed` flag:
at a concrete dead child, the signal list is not empty. -/
theorem terminate_dead_child_sends_sigint :
    ¬ ((KillProcess 5000 neverReaped true).signals = []) := by
  rw [KillProcess_dead_child]
  simp

/-- C2 (amended): `Terminate` on an already-dead child returns
`killed = true` immediately, performs no polling sleep, and never
escalates to the forceful kill — but the graceful `SIGINT` is still
sent unconditionally, so exactly one signal is issued. -/
theorem terminate_dead_child_idempotent (nIters : Nat)
    (reaped : Nat → Bool) :
    (KillProcess nIters reaped true).killed = true ∧
    (KillProcess nIters reaped true).sleeps = 0 ∧
    Sig.sigkill ∉ (KillProcess nIters reaped true).signals ∧
    (KillProcess nIters reaped true).signals = [Sig.sigint] := by
  rw [KillProcess_dead_child]
  refine ⟨rfl, rfl, ?_, rfl⟩
  simp

/-- C3 counterexample: after the timeout is exhausted on a child that
never exits, the claim says the `killed` result reflects a dead child,
but the code sends `SIGKILL` without setting `_killed`, so the flag is
still false on return at a concrete unresponsive child. -/
theorem timeout_escalation_killed_flag_stays_false :
    ¬ ((KillProcess 3 neverReaped false).killed = true) := by
  decide

/-- C3 (amended): on a child that never exits during the polling
window, exactly one forceful `SIGKILL` is sent, and only after the full
budget of poll-and-sleep iterations has elapsed (the signal list is
precisely the initial `SIGINT` followed by a single final `SIGKILL`,
with all `nIters` sleeps performed in between) — but the `_killed`
out-parameter remains false on return rather than reflecting a dead
child. -/
theorem timeout_escalation (nIters : Nat) (reaped : Nat → Bool)
    (h : ∀ j, reaped j = false) :
    (KillProcess nIters reaped false).signals = [Sig.sigint, Sig.sigkill] ∧
    (KillProcess nIters reaped false).sleeps = nIters ∧
    (KillProcess nIters reaped false).killed = false := by
  have hl := killLoop_neverDies reaped h 0 nIters
  simp [KillProcess, hl]

/-- Witness for the amended C3 at a concrete unresponsive child. -/
theorem timeout_escalation_witness :
    (KillProcess 3 neverReaped false).signals = [Sig.sigint, Sig.sigkill] ∧
    (KillProcess 3 neverReaped false).sleeps = 3 ∧
    (KillProcess 3 neverReaped false).killed = false :=
  timeout_escalation 3 neverReaped (fun _ => rfl)

/-- C5: the supervisor's aggregate exit code is 0 exactly when the
first reaped child exited normally with status 0; in every other case
it is the single distinct nonzero constant `-1`. -/
theorem aggregate_exit_code (status : Nat) :
    (aggregateReturn status = 0 ↔ exitedCleanly status = true) ∧
    (aggregateReturn status = 0 ∨ aggregateReturn status = -1) := by
  by_cases h1 : wifexited status = true <;>
    by_cases h2 : wexitstatus status = 0 <;>
      simp [aggregateReturn, exitedCleanly, h1, h2]

/-- C4: when a child has exited and the signal callback has not yet
fired (`sigKilled` still false), the tail of `main` raises the
termination signal against itself, which synchronously runs the Signal
Relay: the new events start with the self-raise, and every planned
child — in particular any still-live sibling — receives the graceful
`SIGINT` before the supervisor returns. -/
theorem unsolicited_exit_relays_signal (fs fg : Bool) (nG nS : Nat)
    (gReap sReap : Nat → Bool) (st : MState)
    (h : st.flags.sigKilled = false) :
    (finishStep fs fg nG nS gReap sReap st).pc = 5 ∧
    (finishStep fs fg nG nS gReap sReap st).flags.sigKilled = true ∧
    (finishStep fs fg nG nS gReap sReap st).trace.take st.trace.length
      = st.trace ∧
    ((finishStep fs fg nG nS gReap sReap st).trace.drop
        st.trace.length).head? = some Ev.selfRaise ∧
    ∀ r, planned fs fg r = true →
      Ev.sendSig r Sig.sigint ∈
        (finishStep fs fg nG nS gReap sReap st).trace.drop st.trace.length := by
  have hne : ¬ (st.flags.sigKilled = true) := by simp [h]
  refine ⟨finishStep_pc fs fg nG nS gReap sReap st,
    finishStep_sigKilled fs fg nG nS gReap sReap st, ?_, ?_, ?_⟩
  · simp [finishStep, hne, List.take_left]
  · simp [finishStep, hne, List.drop_left]
  · intro r hr
    simp only [finishStep, hne, if_false, Bool.false_eq_true, List.drop_left]
    exact List.mem_cons_of_mem _ (sigint_mem_sigCallback fs fg nG nS
      gReap sReap st.flags r hr)

/-- Witness for C4: with both children planned, the GUI already reaped
and no signal caught, the finishing step delivers the graceful request
to the still-live server sibling. -/
theorem unsolicited_exit_relays_signal_witness :
    Ev.sendSig Role.server Sig.sigint ∈
      (finishStep false false 0 0 neverReaped neverReaped
        reapedGuiState).trace.drop reapedGuiState.trace.length :=
  (unsolicited_exit_relays_signal false false 0 0 neverReaped neverReaped
    reapedGuiState rfl).2.2.2.2 Role.server rfl

/-- C6: on its first invocation with both children planned and alive,
the signal callback first records `signaled := true`, then the Shutdown
Escalator runs against the GUI before the server: the event list is the
signaled-flag record, immediately followed by the GUI's graceful
`SIGINT`, with the server's graceful `SIGINT` strictly later — so both
children receive a graceful-termination request. -/
theorem signal_relay_gui_before_server (nG nS : Nat)
    (gReap sReap : Nat → Bool) (fl : ShutdownFlags)
    (_hFirst : fl.sigKilled = false) (_hGuiAlive : fl.guiKilled = false)
    (_hServerAlive : fl.serverKilled = false) :
    (sigCallback false false nG nS gReap sReap fl).1.sigKilled = true ∧
    ∃ l1 l2,
      (sigCallback false false nG nS gReap sReap fl).2 =
        Ev.setSignaled :: Ev.sendSig Role.gui Sig.sigint ::
          (l1 ++ Ev.sendSig Role.server Sig.sigint :: l2) := by
  constructor
  · rw [sigCallback_fst]
  · refine ⟨(if (KillProcess nG gReap fl.guiKilled).killed then []
        else [Sig.sigkill]).map (Ev.sendSig Role.gui),
      (if (KillProcess nS sReap fl.serverKilled).killed then []
        else [Sig.sigkill]).map (Ev.sendSig Role.server), ?_⟩
    rw [sigCallback_snd]
    simp [KillProcess_signals_shape]

/-- Witness for C6 at a concrete first invocation with both children
alive. -/
theorem signal_relay_gui_before_server_witness :
    (sigCallback false false 0 0 neverReaped neverReaped
      ⟨false, false, false⟩).1.sigKilled = true :=
  (signal_relay_gui_before_server 0 0 neverReaped neverReaped
    ⟨false, false, false⟩ rfl rfl rfl).1

/-- C7: across every step out of a reachable supervisor state, the
shared shutdown flags are monotonic — `sigKilled` and the per-role
killed flags are never reset — no spawn event is added once `sigKilled`
is true, and every terminated run ends with `sigKilled = true` (so in a
complete run the flag transitions false to true exactly once, and each
killed flag at most once). -/
theorem shutdown_flags_monotonic (fs fg : Bool) (st st' : MState)
    (hR : Reachable fs fg st) (hS : Step fs fg st st') :
    (st.flags.sigKilled = true → st'.flags.sigKilled = true) ∧
    (st.flags.guiKilled = true → st'.flags.guiKilled = true) ∧
    (st.flags.serverKilled = true → st'.flags.serverKilled = true) ∧
    (st.flags.sigKilled = true →
      spawnEvents st'.trace = spawnEvents st.trace) ∧
    (st'.pc = 5 → st'.flags.sigKilled = true) := by
  cases hS with
  | forkServer h =>
      refine ⟨fun hk => hk, fun hk => hk, fun hk => hk, ?_, ?_⟩
      · intro hk
        exact absurd (reachable_sigKilled_pc fs fg st hR hk) (by omega)
      · intro h5
        dsimp only at h5
        omega
  | forkGui h =>
      refine ⟨fun hk => hk, fun hk => hk, fun hk => hk, ?_, ?_⟩
      · intro hk
        exact absurd (reachable_sigKilled_pc fs fg st hR hk) (by omega)
      · intro h5
        dsimp only at h5
        omega
  | installHandler h =>
      exact ⟨fun hk => hk, fun hk => hk, fun hk => hk, fun _ => rfl,
        fun h5 => absurd h5 (by dsimp only; omega)⟩
  | handlerFires h nG nS gReap sReap =>
      refine ⟨?_, ?_, ?_, ?_, ?_⟩
      · intro _
        exact (sigCallback_mono fs fg nG nS gReap sReap st.flags).1
      · intro hk
        exact (sigCallback_mono fs fg nG nS gReap sReap st.flags).2.1 hk
      · intro hk
        exact (sigCallback_mono fs fg nG nS gReap sReap st.flags).2.2 hk
      · intro _
        dsimp only
        rw [spawnEvents_append, spawnEvents_sigCallback, List.append_nil]
      · intro h5
        dsimp only at h5
        rcases h with h3 | h4
        · omega
        · omega
  | reapChild r status h hr =>
      refine ⟨?_, ?_, ?_, ?_, ?_⟩
      · intro hk
        cases r
        · exact hk
        · exact hk
      · intro hk
        cases r
        · exact hk
        · rfl
      · intro hk
        cases r
        · rfl
        · exact hk
      · intro _
        dsimp only
        rw [spawnEvents_append]
        simp [spawnEvents, isSpawn]
      · intro h5
        dsimp only at h5
        omega
  | reapNone ret' h hn =>
      refine ⟨fun hk => hk, fun hk => hk, fun hk => hk, fun _ => rfl, ?_⟩
      intro h5
      dsimp only at h5
      omega
  | finish h nG nS gReap sReap =>
      refine ⟨fun _ => finishStep_sigKilled fs fg nG nS gReap sReap st,
        (finishStep_mono fs fg nG nS gReap sReap st).1,
        (finishStep_mono fs fg nG nS gReap sReap st).2, ?_,
        fun _ => finishStep_sigKilled fs fg nG nS gReap sReap st⟩
      intro hk
      simp [finishStep, hk]

/-- Witness for C7 at a concrete reachable step of a dual-child run:
after a signal has been caught, the reaping step keeps `sigKilled`
true. -/
theorem shutdown_flags_monotonic_witness :
    wState5.flags.sigKilled = true :=
  (shutdown_flags_monotonic false false wState4 wState5 wState4_reachable
    (Step.reapChild wState4 Role.gui 0 rfl rfl)).1 (by decide)

/-- C8: every verbosity value 0 through 4 is accepted by the registered
validator; out-of-range values — in particular `-1` and `5` — are
rejected, and a rejected parse resolves to a validation error before
any child is spawned. -/
theorem verbosity_range_enforced (vv vs : Int)
    (hFlag helpCur versionCur : Bool)
    (hBad : VerbosityValidator vv = false) :
    (∀ w : Int, 0 ≤ w → w ≤ 4 → VerbosityValidator w = true) ∧
    VerbosityValidator 0 = true ∧ VerbosityValidator 4 = true ∧
    VerbosityValidator (-1) = false ∧ VerbosityValidator 5 = false ∧
    earlyMain vv vs hFlag helpCur versionCur =
      EarlyOutcome.validationError ∧
    (∀ fs fg, childrenOfOutcome fs fg
        (earlyMain vv vs hFlag helpCur versionCur) = []) := by
  have hMain : earlyMain vv vs hFlag helpCur versionCur =
      EarlyOutcome.validationError := by
    simp [earlyMain, hBad]
  refine ⟨?_, by decide, by decide, by decide, by decide, hMain, ?_⟩
  · intro w h0 h4
    simp [VerbosityValidator, h0, h4]
  · intro fs fg
    rw [hMain]
    rfl

/-- Witness for C8 at the out-of-range value 5. -/
theorem verbosity_range_enforced_witness :
    earlyMain 5 1 false false false = EarlyOutcome.validationError :=
  (verbosity_range_enforced 5 1 false false false (by decide)).2.2.2.2.2.1

/-- C9: each child's argument vector is the supervisor's received
vector with only index 0 replaced by the child's executable name and a
null terminator appended; consequently the server's and the GUI's
vectors agree at every index other than 0. -/
theorem child_argv_passthrough (name : String) (argv : List String)
    (h : argv ≠ []) :
    (childArgv name argv).length = argv.length + 1 ∧
    (childArgv name argv)[0]? = some (some name) ∧
    (∀ i, 0 < i → i < argv.length →
      (childArgv name argv)[i]? = argv[i]?.map some) ∧
    (childArgv name argv)[argv.length]? = some none ∧
    (∀ i, i ≠ 0 →
      (childArgv "ign-gazebo-server" argv)[i]? =
        (childArgv "ign-gazebo-gui" argv)[i]?) := by
  have hpos : 0 < argv.length := List.length_pos.2 h
  refine ⟨?_, ?_, ?_, ?_, ?_⟩
  · simp [childArgv]
    omega
  · rw [childArgv]
    exact List.getElem?_cons_zero
  · intro i h0 hlen
    obtain ⟨j, rfl⟩ : ∃ j, i = j + 1 := ⟨i - 1, by omega⟩
    rw [childArgv, List.getElem?_cons_succ,
      List.getElem?_append_left (by simp; omega),
      List.getElem?_map, List.getElem?_drop, Nat.add_comm 1 j]
  · obtain ⟨m, hm⟩ : ∃ m, argv.length = m + 1 :=
      ⟨argv.length - 1, by omega⟩
    rw [childArgv, hm, List.getElem?_cons_succ,
      List.getElem?_append_right (by simp [hm])]
    simp [hm]
  · intro i hi
    obtain ⟨j, rfl⟩ : ∃ j, i = j + 1 := ⟨i - 1, by omega⟩
    rw [childArgv, childArgv, List.getElem?_cons_succ,
      List.getElem?_cons_succ]

/-- Witness for C9 at a concrete two-element argument vector. -/
theorem child_argv_passthrough_witness :
    (childArgv "ign-gazebo-server" ["ign-gazebo", "shapes.sdf"]).length
      = 3 :=
  (child_argv_passthrough "ign-gazebo-server" ["ign-gazebo", "shapes.sdf"]
    (by simp)).1

/-- C10: when both a help flag and `--version` are supplied, help takes
precedence — the outcome is the help text with exit status 0, not the
version print, and no child is spawned. -/
theorem help_overrides_version (vv vs : Int)
    (hFlag helpCur versionCur : Bool)
    (hValid : VerbosityValidator vv = true ∧ VerbosityValidator vs = true)
    (hHelp : hFlag = true ∨ helpCur = true) (_hVer : versionCur = true) :
    earlyMain vv vs hFlag helpCur versionCur = EarlyOutcome.helpShown 0 ∧
    earlyMain vv vs hFlag helpCur versionCur ≠
      EarlyOutcome.versionShown 0 ∧
    (∀ fs fg, childrenOfOutcome fs fg
        (earlyMain vv vs hFlag helpCur versionCur) = []) := by
  have hcond : (hFlag || helpCur) = true := by
    rcases hHelp with h | h <;> simp [h]
  have hMain : earlyMain vv vs hFlag helpCur versionCur =
      EarlyOutcome.helpShown 0 := by
    simp [earlyMain, hValid.1, hValid.2, hcond]
  refine ⟨hMain, by rw [hMain]; simp, fun fs fg => by rw [hMain]; rfl⟩

/-- Witness for C10 with `-h` and `--version` both supplied. -/
theorem help_overrides_version_witness :
    earlyMain 1 1 true false true = EarlyOutcome.helpShown 0 :=
  (help_overrides_version 1 1 true false true (by decide)
    (Or.inl rfl) rfl).1

end IgnGazebo
